import Mathlib

/-!
Verification of the real-time presence and message-delivery core of the
chatting-karle repository (Backend/src/config/socket.ts, with the content
validation rules of Backend/src/models/Message.ts).

The socket handlers are shallowly embedded as pure functions producing
explicit effect traces:
  * `onSendMessage` models the "sendMessage" handler (socket.ts lines 131-162);
  * `step` models the connection handler's registry/presence updates
    (lines 106-128) and the "disconnect" handler (lines 191-227);
  * `runTyping` models the "typing"/"stopTyping" handlers with their shared
    3000 ms debounce timer (lines 164-188).
Storage calls (Mongoose `Message.create`, `message.save`,
`User.findByIdAndUpdate`) are external collaborators that can fail; each
call's outcome is an explicit boolean parameter of the embedding, and the
validation Mongoose itself performs (`messageSchema.content`: required after
trim, maxlength 5000) is computed by `contentValid`.
-/

namespace ChattingKarle

/-- `messageType` enum of `messageSchema` (Message.ts). -/
inductive MessageType
  | text
  | image
  | file
deriving DecidableEq, Repr

/-- `status` enum of `messageSchema` (Message.ts). -/
inductive MessageStatus
  | sent
  | delivered
  | read
deriving DecidableEq, Repr

/-- Whitespace trimming applied by the `trim: true` setter of
`messageSchema.content` (Message.ts line 70): drop whitespace from both ends
of the character sequence. -/
def trimmed (c : String) : List Char :=
  ((c.data.dropWhile Char.isWhitespace).reverse.dropWhile Char.isWhitespace).reverse

/-- Validation performed by `messageSchema.content` (Message.ts lines 67-72):
the `trim` setter runs first, then `required` rejects the empty string and
`maxlength` rejects more than 5000 characters. -/
def contentValid (c : String) : Bool :=
  !(trimmed c).isEmpty && decide ((trimmed c).length ≤ 5000)

/-- Observable effects of one run of the `sendMessage` handler.
`createCall` records the `Message.create` invocation together with the
arguments the handler passes and whether the call succeeded; `saveStatus`
records the `message.save()` after `message.status = "delivered"`;
`roomEmit` is `socket.to(room).emit("messageReceived", ...)`; `ackSender` is
the `messageSent` acknowledgement and `errorToSender` the generic
`socket.emit("error", "Failed to send message")` of the catch block. -/
inductive Eff
  | createCall (sender receiver content : String)
      (messageType : MessageType) (status : MessageStatus) (ok : Bool)
  | ackSender (sender : String)
  | roomEmit (room : String)
  | saveStatus (status : MessageStatus) (ok : Bool)
  | errorToSender
deriving DecidableEq, Repr

/-- The `sendMessage` handler (socket.ts lines 131-162).

`persistOk` is the outcome of the external storage call underlying
`Message.create` beyond schema validation (a create succeeds exactly when the
content passes `contentValid` and the storage call itself succeeds), and
`updateOk` is the outcome of the later `message.save()`. The handler:
creates the message with `status: "sent"`, acknowledges the sender, emits
`messageReceived` to the room named by `data.receiverId`, then
unconditionally sets `status = "delivered"` and saves. Any thrown error
lands in the catch block, which emits the generic error to the sender.
No receiver-existence or content check happens in the handler itself. -/
def onSendMessage (senderId receiverId content : String)
    (messageType : Option MessageType) (persistOk updateOk : Bool) : List Eff :=
  let mt := messageType.getD MessageType.text
  if contentValid content && persistOk then
    Eff.createCall senderId receiverId content mt MessageStatus.sent true ::
    Eff.ackSender senderId ::
    Eff.roomEmit receiverId ::
    Eff.saveStatus MessageStatus.delivered updateOk ::
    (if updateOk then [] else [Eff.errorToSender])
  else
    [Eff.createCall senderId receiverId content mt MessageStatus.sent false,
     Eff.errorToSender]

/-- Registry lookup on the `activeConnections` map (socket.ts line 23),
modelled as an association list from userId to socket id. -/
def regLookup (m : List (String × Nat)) (u : String) : Option Nat :=
  (m.find? fun p => p.1 == u).map Prod.snd

/-- `activeConnections.set(userId, socket)` (socket.ts line 107): insert or
replace the entry for `u`. -/
def regInsert (m : List (String × Nat)) (u : String) (sid : Nat) :
    List (String × Nat) :=
  (u, sid) :: m.filter fun p => p.1 != u

/-- `activeConnections.delete(userId)` (socket.ts line 205): keyed by the
userId alone. -/
def regErase (m : List (String × Nat)) (u : String) : List (String × Nat) :=
  m.filter fun p => p.1 != u

/-- Number of push events actually delivered to a live session by a trace:
a `roomEmit room` reaches the session of user `room` exactly when that user
has a registered session that joined its personal room (socket.ts line 110),
and `socket.to` excludes the sending socket itself. -/
def deliveredPushes (reg : List (String × Nat)) (senderId : String)
    (l : List Eff) : Nat :=
  (l.filter fun e =>
    match e with
    | Eff.roomEmit room => (regLookup reg room).isSome && room != senderId
    | _ => false).length

/-- `a` occurs in `l` strictly before the first occurrence of `b`. -/
def occursBefore (l : List Eff) (a b : Eff) : Bool :=
  (l.takeWhile fun e => e != b).contains a

/-- The trace contains a `Message.create` invocation (successful or not). -/
def createInvoked (l : List Eff) : Bool :=
  l.any fun e =>
    match e with
    | Eff.createCall _ _ _ _ _ _ => true
    | _ => false

/-- The trace contains a successful `Message.create` (a persisted message). -/
def createPersisted (l : List Eff) : Bool :=
  l.any fun e =>
    match e with
    | Eff.createCall _ _ _ _ _ ok => ok
    | _ => false

/-- Number of `saveStatus` effects (status-update writes) in a trace. -/
def statusUpdates (l : List Eff) : Nat :=
  (l.filter fun e =>
    match e with
    | Eff.saveStatus _ _ => true
    | _ => false).length

/-- State shared by the connection-level handlers: the `activeConnections`
map (socket.ts line 23), the `isOnline` flag of each user document in
storage (User model, written via `User.findByIdAndUpdate`), and the set of
currently open socket connections. -/
structure SysState where
  activeConnections : List (String × Nat)
  userOnline : List (String × Bool)
  openSockets : List Nat
deriving DecidableEq, Repr

/-- `User.findByIdAndUpdate(userId, { isOnline: b, ... })`: set the stored
flag for one user. -/
def dbSet (db : List (String × Bool)) (u : String) (b : Bool) :
    List (String × Bool) :=
  (u, b) :: db.filter fun p => p.1 != u

/-- Stored `isOnline` flag of a user (the User schema default is `false`). -/
def dbOnline (db : List (String × Bool)) (u : String) : Bool :=
  (((db.find? fun p => p.1 == u).map Prod.snd).getD false)

/-- Observable presence effect: the `userStatusChanged` broadcast
(socket.ts lines 124-128 and 214-218). -/
inductive PEff
  | statusBroadcast (userId : String) (isOnline : Bool)
deriving DecidableEq, Repr

/-- Connection-level events. `dbOk` is the outcome of the
`User.findByIdAndUpdate` storage write performed by the handler. -/
inductive Ev
  | connect (userId : String) (sid : Nat) (dbOk : Bool)
  | disconnect (userId : String) (sid : Nat) (dbOk : Bool)
deriving DecidableEq, Repr

/-- One handler invocation.

`connect` (socket.ts lines 99-128): the socket is opened, the registry entry
is set (line 107) and the room joined before the storage write (line 113);
if the write succeeds the online broadcast follows (line 124). If the write
throws, control jumps to the outer catch (lines 243-246), which logs and
calls `socket.disconnect(true)` — the broadcast is skipped, and because the
`disconnect` listener (line 191) was never attached, the stale registry
entry is not removed.

`disconnect` (socket.ts lines 191-227): the socket is closed, the typing
timer cleared and the registry entry deleted (line 205) before the storage
write (line 208); the offline broadcast (line 214) runs only if the write
succeeds, else the catch (line 224) only logs. -/
def step (s : SysState) : Ev → SysState × List PEff
  | Ev.connect u sid dbOk =>
    let reg := regInsert s.activeConnections u sid
    if dbOk then
      ({ activeConnections := reg, userOnline := dbSet s.userOnline u true,
         openSockets := sid :: s.openSockets },
       [PEff.statusBroadcast u true])
    else
      ({ activeConnections := reg, userOnline := s.userOnline,
         openSockets := s.openSockets }, [])
  | Ev.disconnect u sid dbOk =>
    let reg := regErase s.activeConnections u
    let opens := s.openSockets.erase sid
    if dbOk then
      ({ activeConnections := reg, userOnline := dbSet s.userOnline u false,
         openSockets := opens },
       [PEff.statusBroadcast u false])
    else
      ({ activeConnections := reg, userOnline := s.userOnline,
         openSockets := opens }, [])

/-- Initial state: empty registry, no users marked online, no open sockets. -/
def initState : SysState := ⟨[], [], []⟩

/-- Run a sequence of connection-level events from a given state. -/
def runFrom (s : SysState) (evs : List Ev) : SysState :=
  evs.foldl (fun st e => (step st e).1) s

/-- Run a sequence of connection-level events from the initial state. -/
def run (evs : List Ev) : SysState := runFrom initState evs

/-- The storage write of an event succeeded. -/
def evOk : Ev → Bool
  | Ev.connect _ _ ok => ok
  | Ev.disconnect _ _ ok => ok

/-- The presence agreement invariant of the spec: a user has a registered
session exactly when its stored `isOnline` flag is true. -/
def presenceAgrees (s : SysState) : Prop :=
  ∀ u, (regLookup s.activeConnections u).isSome = dbOnline s.userOnline u

/-! ## Typing notifier (socket.ts lines 164-188)

One `typingTimeout` variable exists per connection (line 165) and is shared
by every `typing`/`stopTyping` event of that connection, whatever the
receiver. Times are in milliseconds; the timer is armed for 3000 ms. -/

/-- Client typing events, carrying `data.receiverId`. -/
inductive TEv
  | typing (receiverId : String)
  | stopTyping (receiverId : String)
deriving DecidableEq, Repr

/-- Pushes emitted by the typing handlers (each a `socket.to(receiverId)`
room emit). -/
inductive TPush
  | userTyping (receiverId : String)
  | userStoppedTyping (receiverId : String)
deriving DecidableEq, Repr

/-- Fire the pending timer if its deadline has passed by time `now`:
the scheduled `userStoppedTyping` emit happens at the deadline. -/
def fireDue (tm : Option (Nat × String)) (now : Nat) :
    Option (Nat × String) × List (Nat × TPush) :=
  match tm with
  | some (e, r) =>
    if e ≤ now then (none, [(e, TPush.userStoppedTyping r)]) else (some (e, r), [])
  | none => (none, [])

/-- Process a time-ordered list of typing events for one connection, starting
from timer state `tm` (deadline and receiver of the armed `setTimeout`, if
any). The `typing` handler (lines 167-181) clears the shared timer, emits
`userTyping` to the receiver's room, and re-arms the timer for `t + 3000`
targeting that receiver; the `stopTyping` handler (lines 183-188) clears the
timer and emits `userStoppedTyping` immediately. After the last event, a
still-pending timer fires at its deadline. -/
def runTyping (tm : Option (Nat × String)) : List (Nat × TEv) → List (Nat × TPush)
  | [] =>
    match tm with
    | some (e, r) => [(e, TPush.userStoppedTyping r)]
    | none => []
  | (t, ev) :: rest =>
    let fd := fireDue tm t
    fd.2 ++
      match ev with
      | TEv.typing r => (t, TPush.userTyping r) :: runTyping (some (t + 3000, r)) rest
      | TEv.stopTyping r => (t, TPush.userStoppedTyping r) :: runTyping none rest

/-- Number of `userTyping` pushes addressed to `r` in a typing trace. -/
def typingPushes (r : String) (l : List (Nat × TPush)) : Nat :=
  (l.filter fun p => decide (p.2 = TPush.userTyping r)).length

/-- Number of `userStoppedTyping` pushes addressed to `r` in a typing trace. -/
def stoppedPushes (r : String) (l : List (Nat × TPush)) : Nat :=
  (l.filter fun p => decide (p.2 = TPush.userStoppedTyping r)).length

example :
    onSendMessage "A" "B" "hi" none true true =
      [Eff.createCall "A" "B" "hi" MessageType.text MessageStatus.sent true,
       Eff.ackSender "A", Eff.roomEmit "B",
       Eff.saveStatus MessageStatus.delivered true] := by decide

example : onSendMessage "A" "B" "" none true true =
    [Eff.createCall "A" "B" "" MessageType.text MessageStatus.sent false,
     Eff.errorToSender] := by decide

example : deliveredPushes [("B", 2)] "A" (onSendMessage "A" "B" "hi" none true true) = 1 := by
  decide

example : deliveredPushes [] "A" (onSendMessage "A" "B" "hi" none true true) = 0 := by
  decide

example :
    run [Ev.connect "u" 1 true, Ev.disconnect "u" 1 false] =
      { activeConnections := [], userOnline := [("u", true)], openSockets := [] } := by
  decide

example :
    runTyping none [(0, TEv.typing "B"), (1000, TEv.typing "B")] =
      [(0, TPush.userTyping "B"), (1000, TPush.userTyping "B"),
       (4000, TPush.userStoppedTyping "B")] := by
  decide

example :
    runTyping none [(0, TEv.typing "B"), (1000, TEv.typing "C")] =
      [(0, TPush.userTyping "B"), (1000, TPush.userTyping "C"),
       (4000, TPush.userStoppedTyping "C")] := by
  decide

/-! ## Helper lemmas about the registry and presence maps -/

lemma find?_key_filter_ne {α : Type} (m : List (String × α)) (u u' : String)
    (h : u' ≠ u) :
    (m.filter fun p => p.1 != u).find? (fun p => p.1 == u') =
      m.find? (fun p => p.1 == u') := by
  induction m with
  | nil => rfl
  | cons a m ih =>
    rcases eq_or_ne a.1 u with ha | ha
    · rw [List.filter_cons_of_neg (p := fun q : String × α => q.1 != u)
          (by simp [ha]),
        List.find?_cons_of_neg (p := fun q : String × α => q.1 == u') _
          (by simp only [beq_iff_eq, ha]; exact Ne.symm h)]
      exact ih
    · rw [List.filter_cons_of_pos (p := fun q : String × α => q.1 != u)
          (by simpa using ha)]
      rcases eq_or_ne a.1 u' with hb | hb
      · rw [List.find?_cons_of_pos
            (p := fun q : String × α => q.1 == u') _ (by simpa using hb),
          List.find?_cons_of_pos
            (p := fun q : String × α => q.1 == u') _ (by simpa using hb)]
      · rw [List.find?_cons_of_neg
            (p := fun q : String × α => q.1 == u') _ (by simpa using hb),
          List.find?_cons_of_neg
            (p := fun q : String × α => q.1 == u') _ (by simpa using hb)]
        exact ih

lemma find?_key_filter_self {α : Type} (m : List (String × α)) (u : String) :
    (m.filter fun p => p.1 != u).find? (fun p => p.1 == u) = none := by
  induction m with
  | nil => rfl
  | cons a m ih =>
    rcases eq_or_ne a.1 u with ha | ha
    · rw [List.filter_cons_of_neg (p := fun q : String × α => q.1 != u)
          (by simp [ha])]
      exact ih
    · rw [List.filter_cons_of_pos (p := fun q : String × α => q.1 != u)
          (by simpa using ha),
        List.find?_cons_of_neg (p := fun q : String × α => q.1 == u) _
          (by simpa using ha)]
      exact ih

lemma regLookup_insert (m : List (String × Nat)) (u : String) (sid : Nat)
    (u' : String) :
    regLookup (regInsert m u sid) u' =
      if u' = u then some sid else regLookup m u' := by
  unfold regLookup regInsert
  rcases eq_or_ne u' u with h | h
  · subst h
    rw [List.find?_cons_of_pos _ (by simp), if_pos rfl]
    rfl
  · rw [List.find?_cons_of_neg _ (by simpa using Ne.symm h),
      find?_key_filter_ne m u u' h, if_neg h]

lemma regLookup_erase (m : List (String × Nat)) (u : String) (u' : String) :
    regLookup (regErase m u) u' =
      if u' = u then none else regLookup m u' := by
  unfold regLookup regErase
  rcases eq_or_ne u' u with h | h
  · subst h
    rw [find?_key_filter_self m u', if_pos rfl]
    rfl
  · rw [find?_key_filter_ne m u u' h, if_neg h]

lemma dbOnline_set (db : List (String × Bool)) (u : String) (b : Bool)
    (u' : String) :
    dbOnline (dbSet db u b) u' = if u' = u then b else dbOnline db u' := by
  unfold dbOnline dbSet
  rcases eq_or_ne u' u with h | h
  · subst h
    rw [List.find?_cons_of_pos _ (by simp), if_pos rfl]
    rfl
  · rw [List.find?_cons_of_neg _ (by simpa using Ne.symm h),
      find?_key_filter_ne db u u' h, if_neg h]

lemma step_connect_ok (s : SysState) (u : String) (sid : Nat) :
    step s (Ev.connect u sid true) =
      ({ activeConnections := regInsert s.activeConnections u sid,
         userOnline := dbSet s.userOnline u true,
         openSockets := sid :: s.openSockets },
       [PEff.statusBroadcast u true]) := rfl

lemma step_connect_fail (s : SysState) (u : String) (sid : Nat) :
    step s (Ev.connect u sid false) =
      ({ activeConnections := regInsert s.activeConnections u sid,
         userOnline := s.userOnline,
         openSockets := s.openSockets }, []) := rfl

lemma step_disconnect_ok (s : SysState) (u : String) (sid : Nat) :
    step s (Ev.disconnect u sid true) =
      ({ activeConnections := regErase s.activeConnections u,
         userOnline := dbSet s.userOnline u false,
         openSockets := s.openSockets.erase sid },
       [PEff.statusBroadcast u false]) := rfl

lemma step_disconnect_fail (s : SysState) (u : String) (sid : Nat) :
    step s (Ev.disconnect u sid false) =
      ({ activeConnections := regErase s.activeConnections u,
         userOnline := s.userOnline,
         openSockets := s.openSockets.erase sid }, []) := rfl

lemma step_preserves_agrees (s : SysState) (e : Ev) (hok : evOk e = true)
    (h : presenceAgrees s) : presenceAgrees (step s e).1 := by
  cases e with
  | connect u sid ok =>
    cases ok
    · simp [evOk] at hok
    · intro u'
      rw [step_connect_ok]
      simp only
      rw [regLookup_insert, dbOnline_set]
      rcases eq_or_ne u' u with h' | h'
      · simp [h']
      · simp [h', h u']
  | disconnect u sid ok =>
    cases ok
    · simp [evOk] at hok
    · intro u'
      rw [step_disconnect_ok]
      simp only
      rw [regLookup_erase, dbOnline_set]
      rcases eq_or_ne u' u with h' | h'
      · simp [h']
      · simp [h', h u']

lemma runFrom_preserves_agrees (evs : List Ev) (s : SysState)
    (hok : ∀ e ∈ evs, evOk e = true) (h : presenceAgrees s) :
    presenceAgrees (runFrom s evs) := by
  induction evs generalizing s with
  | nil => exact h
  | cons e evs ih =>
    exact ih (step s e).1 (fun e' he' => hok e' (List.mem_cons_of_mem _ he'))
      (step_preserves_agrees s e (hok e (List.mem_cons_self _ _)) h)

lemma initState_agrees : presenceAgrees initState := fun _ => rfl

/-! ## Claim theorems -/

/-- C3 counterexample: the agreement between the registry and the stored
`isOnline` flag does not survive a disconnect handler whose storage write
fails — the registry entry is deleted (socket.ts line 205) before the write
(line 208), and the catch only logs, so the user stays marked online in
storage with no registered session. -/
theorem presence_agreement_fails_on_storage_error_cex :
    ¬ presenceAgrees (run [Ev.connect "u" 1 true, Ev.disconnect "u" 1 false]) := by
  intro h
  exact absurd (h "u") (by decide)

/-- C3 (amended): after any sequence of connect/disconnect handlers whose
`User.findByIdAndUpdate` storage writes all succeed, every user has a
registered session exactly when its stored `isOnline` flag is true. -/
theorem presence_agreement_when_storage_ok (evs : List Ev)
    (hok : ∀ e ∈ evs, evOk e = true) : presenceAgrees (run evs) :=
  runFrom_preserves_agrees evs initState hok initState_agrees

theorem presence_agreement_when_storage_ok_witness :
    (regLookup (run [Ev.connect "u" 1 true, Ev.disconnect "u" 1 true,
        Ev.connect "v" 2 true]).activeConnections "u").isSome =
      dbOnline (run [Ev.connect "u" 1 true, Ev.disconnect "u" 1 true,
        Ev.connect "v" 2 true]).userOnline "u" :=
  presence_agreement_when_storage_ok
    [Ev.connect "u" 1 true, Ev.disconnect "u" 1 true, Ev.connect "v" 2 true]
    (by decide) "u"

/-- C9 counterexample: a disconnect whose storage write fails produces no
`userStatusChanged` broadcast at all — the broadcast (socket.ts line 214)
sits after the `await User.findByIdAndUpdate` (line 208), so the thrown
error skips it and lands in the catch (line 224), which only logs. -/
theorem presence_broadcast_skipped_on_failure_cex :
    (step (run [Ev.connect "u" 1 true]) (Ev.disconnect "u" 1 false)).2 = [] ∧
    (step (run [Ev.connect "u" 1 true])
        (Ev.disconnect "u" 1 false)).1.activeConnections = [] := by
  decide

/-- C9 (amended): when the storage write of a presence transition fails, the
in-memory registry transition still happens (it precedes the write) and the
stored flag is untouched, but the `userStatusChanged` broadcast is skipped
(it follows the write); the error is only logged. -/
theorem presence_failure_transition_without_broadcast (s : SysState)
    (u : String) (sid : Nat) :
    (step s (Ev.connect u sid false)).1.activeConnections =
        regInsert s.activeConnections u sid ∧
    (step s (Ev.connect u sid false)).1.userOnline = s.userOnline ∧
    (step s (Ev.connect u sid false)).2 = [] ∧
    (step s (Ev.disconnect u sid false)).1.activeConnections =
        regErase s.activeConnections u ∧
    (step s (Ev.disconnect u sid false)).1.userOnline = s.userOnline ∧
    (step s (Ev.disconnect u sid false)).2 = [] :=
  ⟨rfl, rfl, rfl, rfl, rfl, rfl⟩

/-- C6: when the `Message.create` persist fails (schema validation or a
transient storage error), the sender gets the generic failure emit of the
catch block and no push event is delivered to any session; and in every run
a `messageReceived` room emit is preceded by a successful `createMessage`,
so only messages that exist in storage are ever delivered. -/
theorem storage_failure_no_delivery (reg : List (String × Nat))
    (sender receiver content : String) (mt : Option MessageType)
    (persistOk updateOk : Bool) :
    ((contentValid content && persistOk) = false →
      onSendMessage sender receiver content mt persistOk updateOk =
        [Eff.createCall sender receiver content (mt.getD MessageType.text)
           MessageStatus.sent false, Eff.errorToSender] ∧
      deliveredPushes reg sender
        (onSendMessage sender receiver content mt persistOk updateOk) = 0) ∧
    (∀ room, Eff.roomEmit room ∈
        onSendMessage sender receiver content mt persistOk updateOk →
      occursBefore
        (onSendMessage sender receiver content mt persistOk updateOk)
        (Eff.createCall sender receiver content (mt.getD MessageType.text)
           MessageStatus.sent true) (Eff.roomEmit room) = true) := by
  constructor
  · intro hfail
    have hrun : onSendMessage sender receiver content mt persistOk updateOk =
        [Eff.createCall sender receiver content (mt.getD MessageType.text)
           MessageStatus.sent false, Eff.errorToSender] := by
      simp [onSendMessage, hfail]
    exact ⟨hrun, by rw [hrun]; rfl⟩
  · intro room hmem
    by_cases hok : (contentValid content && persistOk) = true
    · cases updateOk with
      | true =>
        have hrun :
            onSendMessage sender receiver content mt persistOk true =
            [Eff.createCall sender receiver content (mt.getD MessageType.text)
               MessageStatus.sent true,
             Eff.ackSender sender, Eff.roomEmit receiver,
             Eff.saveStatus MessageStatus.delivered true] := by
          simp [onSendMessage, hok]
        rw [hrun] at hmem ⊢
        have hroom : room = receiver := by simpa using hmem
        subst hroom
        simp [occursBefore]
      | false =>
        have hrun :
            onSendMessage sender receiver content mt persistOk false =
            [Eff.createCall sender receiver content (mt.getD MessageType.text)
               MessageStatus.sent true,
             Eff.ackSender sender, Eff.roomEmit receiver,
             Eff.saveStatus MessageStatus.delivered false,
             Eff.errorToSender] := by
          simp [onSendMessage, hok]
        rw [hrun] at hmem ⊢
        have hroom : room = receiver := by simpa using hmem
        subst hroom
        simp [occursBefore]
    · have hfail : (contentValid content && persistOk) = false := by
        simpa using hok
      have hrun : onSendMessage sender receiver content mt persistOk updateOk =
          [Eff.createCall sender receiver content (mt.getD MessageType.text)
             MessageStatus.sent false, Eff.errorToSender] := by
        simp [onSendMessage, hfail]
      rw [hrun] at hmem
      simp at hmem

theorem storage_failure_no_delivery_witness :
    (contentValid "hi" && false) = false ∧
    (onSendMessage "A" "B" "hi" none false true =
      [Eff.createCall "A" "B" "hi" MessageType.text MessageStatus.sent false,
       Eff.errorToSender] ∧
     deliveredPushes [("B", 2)] "A"
       (onSendMessage "A" "B" "hi" none false true) = 0) ∧
    occursBefore (onSendMessage "A" "B" "hi" none true true)
      (Eff.createCall "A" "B" "hi" MessageType.text MessageStatus.sent true)
      (Eff.roomEmit "B") = true :=
  ⟨by decide,
   (storage_failure_no_delivery [("B", 2)] "A" "B" "hi" none false true).1
     (by decide),
   (storage_failure_no_delivery [("B", 2)] "A" "B" "hi" none true true).2
     "B" (by decide)⟩

/-- C7 counterexample: two `typing` events 1000 ms apart produce TWO
`userTyping` pushes, not one — the handler (socket.ts lines 167-173) emits
`userTyping` on every event before re-arming the timer; nothing suppresses
the duplicate. -/
theorem double_typing_two_pushes_cex :
    typingPushes "B"
      (runTyping none [(0, TEv.typing "B"), (1000, TEv.typing "B")]) = 2 := by
  decide

/-- C7 (amended): two `notifyTyping(A,B)` calls 1 second apart produce two
`userTyping` pushes — one per call, since the emit is unconditional — and
exactly one `userStoppedTyping` push 3000 ms after the second call (the
second call does re-arm the shared timer). -/
theorem double_typing_effects (B : String) :
    runTyping none [(0, TEv.typing B), (1000, TEv.typing B)] =
      [(0, TPush.userTyping B), (1000, TPush.userTyping B),
       (4000, TPush.userStoppedTyping B)] ∧
    typingPushes B
      (runTyping none [(0, TEv.typing B), (1000, TEv.typing B)]) = 2 ∧
    stoppedPushes B
      (runTyping none [(0, TEv.typing B), (1000, TEv.typing B)]) = 1 := by
  have hrun : runTyping none [(0, TEv.typing B), (1000, TEv.typing B)] =
      [(0, TPush.userTyping B), (1000, TPush.userTyping B),
       (4000, TPush.userStoppedTyping B)] := by
    simp [runTyping, fireDue]
  refine ⟨hrun, ?_, ?_⟩ <;> rw [hrun] <;> simp [typingPushes, stoppedPushes]

/-- C8 counterexample: with (sender,B)'s 3-second timer pending, a
`typing` event for receiver C clears that timer (the `typingTimeout`
variable at socket.ts line 165 is shared by all receivers of the
connection), so B never receives the `userStoppedTyping` push the claim
says is unaffected. -/
theorem typing_timer_shared_cex :
    runTyping none [(0, TEv.typing "B"), (1000, TEv.typing "C")] =
      [(0, TPush.userTyping "B"), (1000, TPush.userTyping "C"),
       (4000, TPush.userStoppedTyping "C")] ∧
    stoppedPushes "B"
      (runTyping none [(0, TEv.typing "B"), (1000, TEv.typing "C")]) = 0 := by
  decide

/-- C8 (amended): the typing timer is a single variable per sender
connection, shared across receivers: a `notifyTyping(sender,C)` while
(sender,B)'s timer is pending cancels B's timer and re-arms it for C, so
the only `userStoppedTyping` fires for C and B never receives one. -/
theorem typing_timer_shared_across_receivers (t1 t2 : Nat) (B C : String)
    (h1 : t1 ≤ t2) (h2 : t2 < t1 + 3000) (hBC : B ≠ C) :
    runTyping none [(t1, TEv.typing B), (t2, TEv.typing C)] =
      [(t1, TPush.userTyping B), (t2, TPush.userTyping C),
       (t2 + 3000, TPush.userStoppedTyping C)] ∧
    stoppedPushes B
      (runTyping none [(t1, TEv.typing B), (t2, TEv.typing C)]) = 0 := by
  have hn : ¬ (t1 + 3000 ≤ t2) := by omega
  have hrun : runTyping none [(t1, TEv.typing B), (t2, TEv.typing C)] =
      [(t1, TPush.userTyping B), (t2, TPush.userTyping C),
       (t2 + 3000, TPush.userStoppedTyping C)] := by
    simp [runTyping, fireDue, hn]
  refine ⟨hrun, ?_⟩
  rw [hrun]
  simp [stoppedPushes, Ne.symm hBC]

theorem typing_timer_shared_across_receivers_witness :
    (0 : Nat) ≤ 1000 ∧ (1000 : Nat) < 0 + 3000 ∧ ("B" : String) ≠ "C" ∧
    (runTyping none [(0, TEv.typing "B"), (1000, TEv.typing "C")] =
      [(0, TPush.userTyping "B"), (1000, TPush.userTyping "C"),
       (1000 + 3000, TPush.userStoppedTyping "C")] ∧
     stoppedPushes "B"
       (runTyping none [(0, TEv.typing "B"), (1000, TEv.typing "C")]) = 0) :=
  ⟨by decide, by decide, by decide,
   typing_timer_shared_across_receivers 0 1000 "B" "C" (by decide)
     (by decide) (by decide)⟩

/-- C10: `activeConnections.delete(socket.userId)` is keyed by the userId
alone, so after session `s1` of user `u` is superseded by session `s2`, a
disconnect of the stale `s1` removes `u`'s registry entry entirely even
though `s2` is still an open connection. -/
theorem unregister_keyed_by_userId (u : String) (s1 s2 : Nat)
    (h : s1 ≠ s2) :
    regLookup (run [Ev.connect u s1 true,
        Ev.connect u s2 true]).activeConnections u = some s2 ∧
    regLookup (run [Ev.connect u s1 true, Ev.connect u s2 true,
        Ev.disconnect u s1 true]).activeConnections u = none ∧
    s2 ∈ (run [Ev.connect u s1 true, Ev.connect u s2 true,
        Ev.disconnect u s1 true]).openSockets := by
  simp only [run, runFrom, List.foldl, step_connect_ok, step_disconnect_ok]
  refine ⟨?_, ?_, ?_⟩
  · rw [regLookup_insert, if_pos rfl]
  · rw [regLookup_erase, if_pos rfl]
  · simp [initState, List.erase_cons, Ne.symm h]

/-- C1 counterexample: when the receiver has no registered session the
handler still runs `message.status = "delivered"; await message.save()`
(socket.ts lines 156-157) — one `updateMessageStatus` write occurs, against
the claim that none does. -/
theorem offline_receiver_status_still_updated_cex :
    regLookup [] "B" = none ∧
    statusUpdates (onSendMessage "A" "B" "hi" none true true) = 1 ∧
    (onSendMessage "A" "B" "hi" none true true).contains
      (Eff.saveStatus MessageStatus.delivered true) = true := by
  decide

/-- C1 (amended): a relay to a receiver with no session makes exactly one
successful `createMessage` call with status `sent` and delivers zero push
events, but one `updateMessageStatus`-style write setting the status to
`delivered` still occurs — the handler never consults the registry. -/
theorem relay_offline_receiver_effects (reg : List (String × Nat))
    (sender receiver content : String) (mt : Option MessageType)
    (hval : contentValid content = true)
    (hoff : regLookup reg receiver = none) :
    onSendMessage sender receiver content mt true true =
      [Eff.createCall sender receiver content (mt.getD MessageType.text)
         MessageStatus.sent true,
       Eff.ackSender sender, Eff.roomEmit receiver,
       Eff.saveStatus MessageStatus.delivered true] ∧
    deliveredPushes reg sender
      (onSendMessage sender receiver content mt true true) = 0 ∧
    statusUpdates (onSendMessage sender receiver content mt true true) = 1 := by
  have hrun : onSendMessage sender receiver content mt true true =
      [Eff.createCall sender receiver content (mt.getD MessageType.text)
         MessageStatus.sent true,
       Eff.ackSender sender, Eff.roomEmit receiver,
       Eff.saveStatus MessageStatus.delivered true] := by
    simp [onSendMessage, hval]
  refine ⟨hrun, ?_, ?_⟩
  · rw [hrun]
    simp [deliveredPushes, hoff]
  · rw [hrun]
    rfl

theorem relay_offline_receiver_effects_witness :
    contentValid "hi" = true ∧ regLookup [] "B" = none ∧
    (onSendMessage "A" "B" "hi" none true true =
      [Eff.createCall "A" "B" "hi" MessageType.text MessageStatus.sent true,
       Eff.ackSender "A", Eff.roomEmit "B",
       Eff.saveStatus MessageStatus.delivered true] ∧
     deliveredPushes [] "A" (onSendMessage "A" "B" "hi" none true true) = 0 ∧
     statusUpdates (onSendMessage "A" "B" "hi" none true true) = 1) :=
  ⟨by decide, by decide,
   relay_offline_receiver_effects [] "A" "B" "hi" none (by decide) (by decide)⟩

/-- C2 counterexample: with the receiver's session registered, the
`messageReceived` push (socket.ts line 153) happens before the status
update (lines 156-157), not after it as the claim orders them. -/
theorem online_relay_update_not_before_push_cex :
    regLookup [("B", 2)] "B" = some 2 ∧
    (onSendMessage "A" "B" "hi" none true true).contains (Eff.roomEmit "B") =
      true ∧
    occursBefore (onSendMessage "A" "B" "hi" none true true)
      (Eff.saveStatus MessageStatus.delivered true) (Eff.roomEmit "B") =
      false := by
  decide

/-- C2 (amended): a relay to a receiver with an active session makes one
successful `createMessage` call with status `sent`, then delivers exactly
one push event to the receiver's session, and then makes the
`updateMessageStatus(id, delivered)` write — the status update follows the
push rather than preceding it. -/
theorem relay_online_receiver_effects (reg : List (String × Nat))
    (sender receiver content : String) (mt : Option MessageType) (sid : Nat)
    (hval : contentValid content = true)
    (hon : regLookup reg receiver = some sid)
    (hne : receiver ≠ sender) :
    onSendMessage sender receiver content mt true true =
      [Eff.createCall sender receiver content (mt.getD MessageType.text)
         MessageStatus.sent true,
       Eff.ackSender sender, Eff.roomEmit receiver,
       Eff.saveStatus MessageStatus.delivered true] ∧
    deliveredPushes reg sender
      (onSendMessage sender receiver content mt true true) = 1 := by
  have hrun : onSendMessage sender receiver content mt true true =
      [Eff.createCall sender receiver content (mt.getD MessageType.text)
         MessageStatus.sent true,
       Eff.ackSender sender, Eff.roomEmit receiver,
       Eff.saveStatus MessageStatus.delivered true] := by
    simp [onSendMessage, hval]
  refine ⟨hrun, ?_⟩
  rw [hrun]
  simp [deliveredPushes, hon, hne]

theorem relay_online_receiver_effects_witness :
    contentValid "hi" = true ∧ regLookup [("B", 2)] "B" = some 2 ∧
    ("B" : String) ≠ "A" ∧
    (onSendMessage "A" "B" "hi" none true true =
      [Eff.createCall "A" "B" "hi" MessageType.text MessageStatus.sent true,
       Eff.ackSender "A", Eff.roomEmit "B",
       Eff.saveStatus MessageStatus.delivered true] ∧
     deliveredPushes [("B", 2)] "A"
       (onSendMessage "A" "B" "hi" none true true) = 1) :=
  ⟨by decide, by decide, by decide,
   relay_online_receiver_effects [("B", 2)] "A" "B" "hi" none 2 (by decide)
     (by decide) (by decide)⟩

/-- C4 counterexample: the handler performs no content validation of its
own, so `Message.create` IS invoked for whitespace-only content — the
rejection happens inside the storage call (schema validation), not before
it, and nothing is persisted. -/
theorem malformed_content_create_invoked_cex :
    contentValid " " = false ∧
    createInvoked (onSendMessage "A" "B" " " none true true) = true ∧
    createPersisted (onSendMessage "A" "B" " " none true true) = false := by
  decide

/-- C4 (amended): for content that is empty after trimming or longer than
5000 characters, the `Message.create` call is made but fails schema
validation, so nothing is persisted, no push is delivered, and the sender
receives the generic failure — the rejection is inside `createMessage`
rather than before it. -/
theorem malformed_content_not_persisted (reg : List (String × Nat))
    (sender receiver content : String) (mt : Option MessageType)
    (persistOk updateOk : Bool)
    (hval : contentValid content = false) :
    onSendMessage sender receiver content mt persistOk updateOk =
      [Eff.createCall sender receiver content (mt.getD MessageType.text)
         MessageStatus.sent false, Eff.errorToSender] ∧
    createPersisted
      (onSendMessage sender receiver content mt persistOk updateOk) = false ∧
    deliveredPushes reg sender
      (onSendMessage sender receiver content mt persistOk updateOk) = 0 := by
  have hrun : onSendMessage sender receiver content mt persistOk updateOk =
      [Eff.createCall sender receiver content (mt.getD MessageType.text)
         MessageStatus.sent false, Eff.errorToSender] := by
    simp [onSendMessage, hval]
  refine ⟨hrun, ?_, ?_⟩ <;> rw [hrun] <;> rfl

theorem malformed_content_not_persisted_witness :
    contentValid " " = false ∧
    (onSendMessage "A" "B" " " none true true =
      [Eff.createCall "A" "B" " " MessageType.text MessageStatus.sent false,
       Eff.errorToSender] ∧
     createPersisted (onSendMessage "A" "B" " " none true true) = false ∧
     deliveredPushes [("B", 2)] "A"
       (onSendMessage "A" "B" " " none true true) = 0) :=
  ⟨by decide,
   malformed_content_not_persisted [("B", 2)] "A" "B" " " none true true
     (by decide)⟩

/-- C5 counterexample: a relay to a receiver id that matches no existing
user is persisted anyway — the handler never checks receiver existence, so
no InvalidRecipient rejection happens before persistence. -/
theorem unknown_receiver_persisted_cex :
    ("ghost" ∉ (["alice"] : List String)) ∧
    createPersisted (onSendMessage "alice" "ghost" "hi" none true true) =
      true := by
  decide

/-- C5 (amended): the `sendMessage` handler performs no receiver-existence
check: for any population of existing users not containing the receiver id,
a relay with valid content and a successful storage call persists the
message and proceeds exactly as for an existing receiver. -/
theorem no_receiver_existence_check (users : List String)
    (sender receiver content : String) (mt : Option MessageType)
    (_hmem : receiver ∉ users) (hval : contentValid content = true) :
    createPersisted (onSendMessage sender receiver content mt true true) =
      true ∧
    onSendMessage sender receiver content mt true true =
      [Eff.createCall sender receiver content (mt.getD MessageType.text)
         MessageStatus.sent true,
       Eff.ackSender sender, Eff.roomEmit receiver,
       Eff.saveStatus MessageStatus.delivered true] := by
  have hrun : onSendMessage sender receiver content mt true true =
      [Eff.createCall sender receiver content (mt.getD MessageType.text)
         MessageStatus.sent true,
       Eff.ackSender sender, Eff.roomEmit receiver,
       Eff.saveStatus MessageStatus.delivered true] := by
    simp [onSendMessage, hval]
  exact ⟨by rw [hrun]; rfl, hrun⟩

theorem no_receiver_existence_check_witness :
    ("ghost" ∉ (["alice"] : List String)) ∧ contentValid "hi" = true ∧
    (createPersisted (onSendMessage "alice" "ghost" "hi" none true true) =
       true ∧
     onSendMessage "alice" "ghost" "hi" none true true =
      [Eff.createCall "alice" "ghost" "hi" MessageType.text
         MessageStatus.sent true,
       Eff.ackSender "alice", Eff.roomEmit "ghost",
       Eff.saveStatus MessageStatus.delivered true]) :=
  ⟨by decide, by decide,
   no_receiver_existence_check ["alice"] "alice" "ghost" "hi" none
     (by decide) (by decide)⟩

theorem unregister_keyed_by_userId_witness :
    regLookup (run [Ev.connect "u" 1 true,
        Ev.connect "u" 2 true]).activeConnections "u" = some 2 ∧
    regLookup (run [Ev.connect "u" 1 true, Ev.connect "u" 2 true,
        Ev.disconnect "u" 1 true]).activeConnections "u" = none ∧
    2 ∈ (run [Ev.connect "u" 1 true, Ev.connect "u" 2 true,
        Ev.disconnect "u" 1 true]).openSockets :=
  unregister_keyed_by_userId "u" 1 2 (by decide)

end ChattingKarle
